import Mathlib

/-!
Verification of the interview-practice platform's session-metrics warning
engine and session state handling, shallowly embedded from the JavaScript
sources:

* `analyzeWarnings` — the live warning engine of the interview page
  (the `useCallback` over `metrics` in the Interview component).
* `interviewReducer`, `nextQuestion`, `previousQuestion` — the session
  state reducer and question-navigation utilities of
  `frontend/src/context/InterviewContext.js`.
* The strengths / improvements feedback bullets of
  `frontend/src/pages/Results.js`.

JavaScript numbers are modelled as rationals (`ℚ`), JS objects used as
string-keyed maps as functions `String → Option ℚ`, and an absent /
`null` field as `Option`.
-/

namespace Interview

/-- `type` field of a warning entry: `'success' | 'warning' | 'error'`. -/
inductive WType where
  | success
  | warning
  | error
deriving DecidableEq, Repr

/-- `category` field of a warning entry: `'detection' | 'performance' | 'emotion'`. -/
inductive WCategory where
  | detection
  | performance
  | emotion
deriving DecidableEq, Repr

/-- One entry of the live warning feed, as pushed by `analyzeWarnings`. -/
structure Warning where
  type : WType
  message : String
  icon : String
  priority : Nat
  category : WCategory
deriving DecidableEq, Repr

/-- The `metrics` object of the interview context that `analyzeWarnings`
reads.  `face_detected` is the truthiness of `metrics.face_detected`
(absent key reads as `false`); `emotionScores` is `none` when the field
is absent or `null` (JS-falsy), and otherwise a string-keyed map where a
missing key yields `none` (JS `undefined`). -/
structure Metrics where
  face_detected : Bool
  eyeContactPercentage : ℚ
  confidenceScore : ℚ
  speechClarity : ℚ
  emotionScores : Option (String → Option ℚ)
  warnings : List Warning

/-- `!metrics?.face_detected` — the optional chain reads `false` when
`metrics` itself is null/undefined. -/
def latestFaceDetected (om : Option Metrics) : Bool :=
  match om with
  | none => false
  | some m => m.face_detected

/-- The priority-1 detection failure entry. -/
def noFaceWarning : Warning :=
  { type := WType.error
    message := "No face detected! Please position yourself in front of the camera."
    icon := "👤"
    priority := 1
    category := WCategory.detection }

/-- The priority-2 detection failure entry. -/
def eyesNotVisibleWarning : Warning :=
  { type := WType.error
    message := "Eyes not visible! Please look directly at the camera."
    icon := "👁️"
    priority := 2
    category := WCategory.detection }

/-- The detection success entry pushed first in the success branch. -/
def detectionSuccess : Warning :=
  { type := WType.success
    message := "Face and eyes detected successfully!"
    icon := "✅"
    priority := 0
    category := WCategory.detection }

/-- The eye-contact performance check (`metrics.eyeContactPercentage`
against 30 / 50). -/
def eyeContactCheck (m : Metrics) : Warning :=
  if m.eyeContactPercentage < 30 then
    { type := WType.error
      message := "Low eye contact detected. Try to look at the camera more."
      icon := "👁️"
      priority := 3
      category := WCategory.performance }
  else if m.eyeContactPercentage < 50 then
    { type := WType.warning
      message := "Eye contact could be improved. Focus on the camera."
      icon := "👁️"
      priority := 4
      category := WCategory.performance }
  else
    { type := WType.success
      message := "Good eye contact maintained!"
      icon := "👁️"
      priority := 0
      category := WCategory.performance }

/-- The confidence performance check (`metrics.confidenceScore` against
0.4 / 0.6). -/
def confidenceCheck (m : Metrics) : Warning :=
  if m.confidenceScore < 0.4 then
    { type := WType.error
      message := "Low confidence detected. Try to sit up straight and maintain good posture."
      icon := "💪"
      priority := 3
      category := WCategory.performance }
  else if m.confidenceScore < 0.6 then
    { type := WType.warning
      message := "Confidence could be improved. Maintain better posture."
      icon := "💪"
      priority := 4
      category := WCategory.performance }
  else
    { type := WType.success
      message := "Good confidence and posture!"
      icon := "💪"
      priority := 0
      category := WCategory.performance }

/-- The speech-clarity performance check (`metrics.speechClarity` against
0.6 / 0.8). -/
def clarityCheck (m : Metrics) : Warning :=
  if m.speechClarity < 0.6 then
    { type := WType.error
      message := "Speech clarity needs improvement. Speak more clearly and slowly."
      icon := "🗣️"
      priority := 3
      category := WCategory.performance }
  else if m.speechClarity < 0.8 then
    { type := WType.warning
      message := "Speech clarity could be improved."
      icon := "🗣️"
      priority := 4
      category := WCategory.performance }
  else
    { type := WType.success
      message := "Excellent speech clarity!"
      icon := "🗣️"
      priority := 0
      category := WCategory.performance }

/-- `const negativeEmotions = ['angry', 'sad', 'fear', 'disgust'];` -/
def negativeEmotions : List String := ["angry", "sad", "fear", "disgust"]

/-- `metrics.emotionScores[emotion] > 0.5` — an absent key reads as
`undefined`, and `undefined > 0.5` is `false` in JS. -/
def exceedsHalf (o : Option ℚ) : Bool :=
  match o with
  | some v => decide ((0.5 : ℚ) < v)
  | none => false

/-- The per-emotion warning pushed inside the `negativeEmotions.forEach`. -/
def emotionWarning (emotion : String) : Warning :=
  { type := WType.warning
    message := "Detected " ++ emotion ++ " expression. Try to maintain a positive demeanor."
    icon := "😊"
    priority := 4
    category := WCategory.emotion }

/-- The success entry pushed when `hasNegativeEmotion` stayed `false`. -/
def emotionSuccess : Warning :=
  { type := WType.success
    message := "Positive emotional state detected!"
    icon := "😊"
    priority := 0
    category := WCategory.emotion }

/-- The entries pushed by the `if (metrics.emotionScores)` block: one
warning per negative emotion whose score exceeds 0.5, in `forEach`
order, else the single emotion success; nothing when the field is
falsy. -/
def emotionSection (m : Metrics) : List Warning :=
  match m.emotionScores with
  | none => []
  | some es =>
      let exceeded := negativeEmotions.filter (fun e => exceedsHalf (es e))
      if exceeded.isEmpty then [emotionSuccess]
      else exceeded.map emotionWarning

/-- `warnings.sort((a, b) => a.priority - b.priority)` — a stable sort
ascending by `priority`. -/
def sortWarnings (l : List Warning) : List Warning :=
  l.insertionSort (fun a b => a.priority ≤ b.priority)

/-- The `analyzeWarnings` callback: the list it passes to
`setWarningMessages`.  Early returns for the two detection failures
skip the sort; the fall-through path builds the success-branch entries
(empty when `eyeContactPercentage` is negative, since then neither the
`=== 0` nor the `> 0` guard holds) and sorts them by priority. -/
def analyzeWarnings (om : Option Metrics) : List Warning :=
  match om with
  | none => [noFaceWarning]
  | some m =>
      if m.face_detected = false then [noFaceWarning]
      else if m.eyeContactPercentage = 0 then [eyesNotVisibleWarning]
      else
        sortWarnings
          (if 0 < m.eyeContactPercentage then
            detectionSuccess :: eyeContactCheck m :: confidenceCheck m ::
              clarityCheck m :: emotionSection m
          else [])

/-- Concrete metrics used by witnesses: face and eyes established,
mid-range performance scores, one negative emotion above threshold. -/
def esTest : String → Option ℚ :=
  fun e => if e = "angry" then some 0.6 else some 0.1

def mTest : Metrics :=
  { face_detected := true
    eyeContactPercentage := 40
    confidenceScore := 0.5
    speechClarity := 0.7
    emotionScores := some esTest
    warnings := [] }

/-- C1: when the latest visual sample has no face detected the feed is a
single priority-1 Detection error and every performance / emotion check
is suppressed. -/
theorem claim_C1 (om : Option Metrics) (h : latestFaceDetected om = false) :
    (analyzeWarnings om).length = 1 ∧
    ∀ w ∈ analyzeWarnings om,
      w.type = WType.error ∧ w.priority = 1 ∧ w.category = WCategory.detection := by
  have hrep : analyzeWarnings om = [noFaceWarning] := by
    match om with
    | none => rfl
    | some m =>
        simp only [latestFaceDetected] at h
        simp [analyzeWarnings, h]
  rw [hrep]
  refine ⟨rfl, ?_⟩
  intro w hw
  simp only [List.mem_singleton] at hw
  subst hw
  exact ⟨rfl, rfl, rfl⟩

/-- Witness for C1 at the null metrics state. -/
theorem claim_C1_witness :
    latestFaceDetected none = false ∧
    ((analyzeWarnings none).length = 1 ∧
      ∀ w ∈ analyzeWarnings none,
        w.type = WType.error ∧ w.priority = 1 ∧ w.category = WCategory.detection) :=
  ⟨rfl, claim_C1 none rfl⟩


/-- The comparator order used by the sort, on priorities. -/
abbrev prioLE (a b : Warning) : Prop := a.priority ≤ b.priority

lemma sortWarnings_perm (l : List Warning) : (sortWarnings l).Perm l :=
  List.perm_insertionSort _ l

lemma sortWarnings_sorted (l : List Warning) :
    (sortWarnings l).Sorted prioLE := by
  haveI : IsTotal Warning prioLE := ⟨fun a b => Nat.le_total _ _⟩
  haveI : IsTrans Warning prioLE := ⟨fun _ _ _ h h' => Nat.le_trans h h'⟩
  exact List.sorted_insertionSort _ l

/-- C2: face detected but the cumulative eye-contact percentage still 0 —
the feed is a single priority-2 Detection error and all performance /
emotion checks are suppressed.  (The code gates on
`metrics.eyeContactPercentage === 0` alone; the claim's extra premise
about the most recent sample's `eyeContact` flag is not part of the
`metrics` object, and the conclusion already holds under the weaker
condition the code tests.) -/
theorem claim_C2 (m : Metrics) (hf : m.face_detected = true)
    (he : m.eyeContactPercentage = 0) :
    (analyzeWarnings (some m)).length = 1 ∧
    ∀ w ∈ analyzeWarnings (some m),
      w.type = WType.error ∧ w.priority = 2 ∧ w.category = WCategory.detection := by
  have hrep : analyzeWarnings (some m) = [eyesNotVisibleWarning] := by
    simp [analyzeWarnings, hf, he]
  rw [hrep]
  refine ⟨rfl, ?_⟩
  intro w hw
  simp only [List.mem_singleton] at hw
  subst hw
  exact ⟨rfl, rfl, rfl⟩

/-- Metrics with face detected but eye contact never yet established. -/
def mNoEyes : Metrics :=
  { face_detected := true
    eyeContactPercentage := 0
    confidenceScore := 0
    speechClarity := 0
    emotionScores := none
    warnings := [] }

/-- Witness for C2 at a state with face detected and zero eye contact. -/
theorem claim_C2_witness :
    mNoEyes.face_detected = true ∧ mNoEyes.eyeContactPercentage = 0 ∧
    ((analyzeWarnings (some mNoEyes)).length = 1 ∧
      ∀ w ∈ analyzeWarnings (some mNoEyes),
        w.type = WType.error ∧ w.priority = 2 ∧ w.category = WCategory.detection) :=
  ⟨rfl, rfl, claim_C2 mNoEyes rfl rfl⟩

/-- C3: the warning feed is always sorted ascending by `priority`
(priority-0 Success entries first), including the early-return
detection-failure cases. -/
theorem claim_C3 (om : Option Metrics) :
    (analyzeWarnings om).Sorted prioLE := by
  match om with
  | none => simp [analyzeWarnings]
  | some m =>
      simp only [analyzeWarnings]
      split
      · simp
      · split
        · simp
        · exact sortWarnings_sorted _

/-- C6: the warning evaluation is deterministic in exactly the inputs it
reads — two metric states with the same face-detected flag, eye-contact
percentage, confidence score, speech clarity and emotion scores produce
identical warning lists, even if they differ elsewhere (e.g. in the
`warnings` field the state also carries). -/
theorem claim_C6 (m₁ m₂ : Metrics)
    (hface : m₁.face_detected = m₂.face_detected)
    (heye : m₁.eyeContactPercentage = m₂.eyeContactPercentage)
    (hconf : m₁.confidenceScore = m₂.confidenceScore)
    (hclar : m₁.speechClarity = m₂.speechClarity)
    (hemo : m₁.emotionScores = m₂.emotionScores) :
    analyzeWarnings (some m₁) = analyzeWarnings (some m₂) := by
  obtain ⟨f₁, e₁, c₁, s₁, es₁, w₁⟩ := m₁
  obtain ⟨f₂, e₂, c₂, s₂, es₂, w₂⟩ := m₂
  dsimp only at hface heye hconf hclar hemo
  subst hface heye hconf hclar hemo
  simp only [analyzeWarnings, sortWarnings, eyeContactCheck, confidenceCheck,
    clarityCheck, emotionSection]

/-- `mTest` with a different `warnings` field, for the C6 witness. -/
def mTestW : Metrics :=
  { mTest with warnings := [noFaceWarning] }

/-- Witness for C6: `mTest` and `mTestW` agree on the five fields the
engine reads but differ in `warnings`, and evaluate identically. -/
theorem claim_C6_witness :
    mTest.face_detected = mTestW.face_detected ∧
    mTest.eyeContactPercentage = mTestW.eyeContactPercentage ∧
    mTest.confidenceScore = mTestW.confidenceScore ∧
    mTest.speechClarity = mTestW.speechClarity ∧
    mTest.emotionScores = mTestW.emotionScores ∧
    analyzeWarnings (some mTest) = analyzeWarnings (some mTestW) :=
  ⟨rfl, rfl, rfl, rfl, rfl, claim_C6 mTest mTestW rfl rfl rfl rfl rfl⟩

lemma analyzeWarnings_pos (m : Metrics) (hf : m.face_detected = true)
    (he : 0 < m.eyeContactPercentage) :
    analyzeWarnings (some m) =
      sortWarnings (detectionSuccess :: eyeContactCheck m :: confidenceCheck m ::
        clarityCheck m :: emotionSection m) := by
  simp [analyzeWarnings, hf, he, he.ne']

lemma analyzeWarnings_pos_perm (m : Metrics) (hf : m.face_detected = true)
    (he : 0 < m.eyeContactPercentage) :
    (analyzeWarnings (some m)).Perm
      (detectionSuccess :: eyeContactCheck m :: confidenceCheck m ::
        clarityCheck m :: emotionSection m) := by
  rw [analyzeWarnings_pos m hf he]
  exact sortWarnings_perm _

lemma eyeContactCheck_spec (m : Metrics) :
    (eyeContactCheck m).category = WCategory.performance ∧
    (m.eyeContactPercentage < 30 →
      (eyeContactCheck m).type = WType.error ∧ (eyeContactCheck m).priority = 3) ∧
    (30 ≤ m.eyeContactPercentage → m.eyeContactPercentage < 50 →
      (eyeContactCheck m).type = WType.warning ∧ (eyeContactCheck m).priority = 4) ∧
    (50 ≤ m.eyeContactPercentage →
      (eyeContactCheck m).type = WType.success ∧ (eyeContactCheck m).priority = 0) := by
  unfold eyeContactCheck
  split_ifs with h1 h2 <;>
    refine ⟨rfl, fun ha => ?_, fun hb hc => ?_, fun hd => ?_⟩ <;>
    first
      | exact ⟨rfl, rfl⟩
      | (exfalso; linarith)

lemma confidenceCheck_spec (m : Metrics) :
    (confidenceCheck m).category = WCategory.performance ∧
    (m.confidenceScore < 0.4 →
      (confidenceCheck m).type = WType.error ∧ (confidenceCheck m).priority = 3) ∧
    (0.4 ≤ m.confidenceScore → m.confidenceScore < 0.6 →
      (confidenceCheck m).type = WType.warning ∧ (confidenceCheck m).priority = 4) ∧
    (0.6 ≤ m.confidenceScore →
      (confidenceCheck m).type = WType.success ∧ (confidenceCheck m).priority = 0) := by
  unfold confidenceCheck
  split_ifs with h1 h2 <;>
    refine ⟨rfl, fun ha => ?_, fun hb hc => ?_, fun hd => ?_⟩ <;>
    first
      | exact ⟨rfl, rfl⟩
      | (exfalso; linarith)

lemma clarityCheck_spec (m : Metrics) :
    (clarityCheck m).category = WCategory.performance ∧
    (m.speechClarity < 0.6 →
      (clarityCheck m).type = WType.error ∧ (clarityCheck m).priority = 3) ∧
    (0.6 ≤ m.speechClarity → m.speechClarity < 0.8 →
      (clarityCheck m).type = WType.warning ∧ (clarityCheck m).priority = 4) ∧
    (0.8 ≤ m.speechClarity →
      (clarityCheck m).type = WType.success ∧ (clarityCheck m).priority = 0) := by
  unfold clarityCheck
  split_ifs with h1 h2 <;>
    refine ⟨rfl, fun ha => ?_, fun hb hc => ?_, fun hd => ?_⟩ <;>
    first
      | exact ⟨rfl, rfl⟩
      | (exfalso; linarith)

/-- C4: once face and eyes are established, each of the three performance
checks contributes exactly one entry, chosen by the fixed thresholds
30 / 50 (eye contact), 0.4 / 0.6 (confidence) and 0.6 / 0.8 (speech
clarity). -/
theorem claim_C4 (m : Metrics) (hf : m.face_detected = true)
    (he : 0 < m.eyeContactPercentage) :
    ∃ wEye wConf wClar : Warning,
      (analyzeWarnings (some m)).Perm
        (detectionSuccess :: wEye :: wConf :: wClar :: emotionSection m) ∧
      (wEye.category = WCategory.performance ∧
        (m.eyeContactPercentage < 30 → wEye.type = WType.error ∧ wEye.priority = 3) ∧
        (30 ≤ m.eyeContactPercentage → m.eyeContactPercentage < 50 →
          wEye.type = WType.warning ∧ wEye.priority = 4) ∧
        (50 ≤ m.eyeContactPercentage → wEye.type = WType.success ∧ wEye.priority = 0)) ∧
      (wConf.category = WCategory.performance ∧
        (m.confidenceScore < 0.4 → wConf.type = WType.error ∧ wConf.priority = 3) ∧
        (0.4 ≤ m.confidenceScore → m.confidenceScore < 0.6 →
          wConf.type = WType.warning ∧ wConf.priority = 4) ∧
        (0.6 ≤ m.confidenceScore → wConf.type = WType.success ∧ wConf.priority = 0)) ∧
      (wClar.category = WCategory.performance ∧
        (m.speechClarity < 0.6 → wClar.type = WType.error ∧ wClar.priority = 3) ∧
        (0.6 ≤ m.speechClarity → m.speechClarity < 0.8 →
          wClar.type = WType.warning ∧ wClar.priority = 4) ∧
        (0.8 ≤ m.speechClarity → wClar.type = WType.success ∧ wClar.priority = 0)) :=
  ⟨eyeContactCheck m, confidenceCheck m, clarityCheck m,
    analyzeWarnings_pos_perm m hf he,
    eyeContactCheck_spec m, confidenceCheck_spec m, clarityCheck_spec m⟩

/-- Witness for C4 at `mTest`. -/
theorem claim_C4_witness :
    mTest.face_detected = true ∧ 0 < mTest.eyeContactPercentage ∧
    (∃ wEye wConf wClar : Warning,
      (analyzeWarnings (some mTest)).Perm
        (detectionSuccess :: wEye :: wConf :: wClar :: emotionSection mTest) ∧
      (wEye.category = WCategory.performance ∧
        (mTest.eyeContactPercentage < 30 → wEye.type = WType.error ∧ wEye.priority = 3) ∧
        (30 ≤ mTest.eyeContactPercentage → mTest.eyeContactPercentage < 50 →
          wEye.type = WType.warning ∧ wEye.priority = 4) ∧
        (50 ≤ mTest.eyeContactPercentage → wEye.type = WType.success ∧ wEye.priority = 0)) ∧
      (wConf.category = WCategory.performance ∧
        (mTest.confidenceScore < 0.4 → wConf.type = WType.error ∧ wConf.priority = 3) ∧
        (0.4 ≤ mTest.confidenceScore → mTest.confidenceScore < 0.6 →
          wConf.type = WType.warning ∧ wConf.priority = 4) ∧
        (0.6 ≤ mTest.confidenceScore → wConf.type = WType.success ∧ wConf.priority = 0)) ∧
      (wClar.category = WCategory.performance ∧
        (mTest.speechClarity < 0.6 → wClar.type = WType.error ∧ wClar.priority = 3) ∧
        (0.6 ≤ mTest.speechClarity → mTest.speechClarity < 0.8 →
          wClar.type = WType.warning ∧ wClar.priority = 4) ∧
        (0.8 ≤ mTest.speechClarity → wClar.type = WType.success ∧ wClar.priority = 0))) :=
  ⟨rfl, by decide, claim_C4 mTest rfl (by decide)⟩

lemma emotionWarning_injective : Function.Injective emotionWarning := by
  intro a b h
  have hm : "Detected " ++ a ++ " expression. Try to maintain a positive demeanor."
      = "Detected " ++ b ++ " expression. Try to maintain a positive demeanor." :=
    congrArg Warning.message h
  have hd := congrArg String.data hm
  simp only [String.data_append] at hd
  exact String.ext (List.append_cancel_left (List.append_cancel_right hd))

lemma emotionWarning_ne_front (m : Metrics) (e : String) :
    emotionWarning e ≠ detectionSuccess ∧ emotionWarning e ≠ eyeContactCheck m ∧
    emotionWarning e ≠ confidenceCheck m ∧ emotionWarning e ≠ clarityCheck m := by
  refine ⟨fun h => ?_, fun h => ?_, fun h => ?_, fun h => ?_⟩
  · have hc := congrArg Warning.category h
    simp [emotionWarning, detectionSuccess] at hc
  · have hc := (eyeContactCheck_spec m).1
    rw [← h] at hc
    simp [emotionWarning] at hc
  · have hc := (confidenceCheck_spec m).1
    rw [← h] at hc
    simp [emotionWarning] at hc
  · have hc := (clarityCheck_spec m).1
    rw [← h] at hc
    simp [emotionWarning] at hc

lemma count_emotion_front (m : Metrics) (e : String) :
    (detectionSuccess :: eyeContactCheck m :: confidenceCheck m ::
        clarityCheck m :: emotionSection m).count (emotionWarning e)
      = (emotionSection m).count (emotionWarning e) := by
  obtain ⟨h1, h2, h3, h4⟩ := emotionWarning_ne_front m e
  simp [List.count_cons, h1, h2, h3, h4]

lemma count_negativeEmotions (e : String) (h : e ∈ negativeEmotions) :
    negativeEmotions.count e = 1 := by
  fin_cases h <;> decide

lemma count_filter_ite (p : String → Bool) (e : String) (l : List String) :
    (l.filter p).count e = if p e = true then l.count e else 0 := by
  induction l with
  | nil => simp
  | cons a t ih =>
      by_cases hpa : p a = true <;> by_cases hea : a = e <;>
        simp_all [List.filter_cons, List.count_cons]

lemma count_emotionSection (m : Metrics) (es : String → Option ℚ)
    (hes : m.emotionScores = some es) (e : String) (hmem : e ∈ negativeEmotions) :
    (emotionSection m).count (emotionWarning e)
      = if exceedsHalf (es e) then 1 else 0 := by
  have hsec : emotionSection m =
      (if (negativeEmotions.filter (fun x => exceedsHalf (es x))).isEmpty
       then [emotionSuccess]
       else (negativeEmotions.filter (fun x => exceedsHalf (es x))).map emotionWarning) := by
    simp [emotionSection, hes]
  rw [hsec]
  by_cases hempty : (negativeEmotions.filter (fun x => exceedsHalf (es x))).isEmpty
  · have hnil := List.isEmpty_iff.mp hempty
    have hfalse : exceedsHalf (es e) = false := by
      have := List.filter_eq_nil_iff.mp hnil e hmem
      simpa using this
    have hne : emotionWarning e ≠ emotionSuccess := by
      intro h
      have ht := congrArg Warning.type h
      simp [emotionWarning, emotionSuccess] at ht
    simp [hempty, hfalse, List.count_cons, hne]
  · rw [if_neg hempty,
      List.count_map_of_injective _ _ emotionWarning_injective,
      count_filter_ite (fun x => exceedsHalf (es x)) e negativeEmotions,
      count_negativeEmotions e hmem]

/-- C5: with face and eyes established and an emotion-scores map present,
each negative emotion in {angry, sad, fear, disgust} whose score exceeds
0.5 contributes exactly one priority-4 Emotion warning, and when none
exceed the threshold the Emotion entries are exactly the single Emotion
success. -/
theorem claim_C5 (m : Metrics) (es : String → Option ℚ)
    (hf : m.face_detected = true) (he : 0 < m.eyeContactPercentage)
    (hes : m.emotionScores = some es) :
    (∀ e ∈ negativeEmotions,
      (emotionWarning e).type = WType.warning ∧
      (emotionWarning e).priority = 4 ∧
      (emotionWarning e).category = WCategory.emotion ∧
      (analyzeWarnings (some m)).count (emotionWarning e)
        = if exceedsHalf (es e) then 1 else 0) ∧
    ((∀ e ∈ negativeEmotions, exceedsHalf (es e) = false) →
      (analyzeWarnings (some m)).filter
        (fun w => w.category == WCategory.emotion) = [emotionSuccess] ∧
      emotionSuccess.type = WType.success ∧
      emotionSuccess.category = WCategory.emotion ∧
      emotionSuccess.priority = 0) := by
  have hperm := analyzeWarnings_pos_perm m hf he
  constructor
  · intro e hmem
    refine ⟨rfl, rfl, rfl, ?_⟩
    rw [hperm.count_eq, count_emotion_front, count_emotionSection m es hes e hmem]
  · intro hall
    have hnil : negativeEmotions.filter (fun x => exceedsHalf (es x)) = [] :=
      List.filter_eq_nil_iff.mpr (fun e hmem => by simp [hall e hmem])
    have hsec : emotionSection m = [emotionSuccess] := by
      simp [emotionSection, hes, hnil]
    have hfilter := hperm.filter (fun w => w.category == WCategory.emotion)
    rw [hsec] at hfilter
    have hbase : (detectionSuccess :: eyeContactCheck m :: confidenceCheck m ::
        clarityCheck m :: [emotionSuccess]).filter
          (fun w => w.category == WCategory.emotion) = [emotionSuccess] := by
      have h2 := (eyeContactCheck_spec m).1
      have h3 := (confidenceCheck_spec m).1
      have h4 := (clarityCheck_spec m).1
      simp [List.filter_cons, h2, h3, h4, detectionSuccess, emotionSuccess]
    rw [hbase] at hfilter
    exact ⟨List.perm_singleton.mp hfilter, rfl, rfl, rfl⟩

/-- Witness for C5 at `mTest` / `esTest` (only `angry` exceeds 0.5). -/
theorem claim_C5_witness :
    mTest.face_detected = true ∧ 0 < mTest.eyeContactPercentage ∧
    mTest.emotionScores = some esTest ∧
    ((∀ e ∈ negativeEmotions,
        (emotionWarning e).type = WType.warning ∧
        (emotionWarning e).priority = 4 ∧
        (emotionWarning e).category = WCategory.emotion ∧
        (analyzeWarnings (some mTest)).count (emotionWarning e)
          = if exceedsHalf (esTest e) then 1 else 0) ∧
      ((∀ e ∈ negativeEmotions, exceedsHalf (esTest e) = false) →
        (analyzeWarnings (some mTest)).filter
          (fun w => w.category == WCategory.emotion) = [emotionSuccess] ∧
        emotionSuccess.type = WType.success ∧
        emotionSuccess.category = WCategory.emotion ∧
        emotionSuccess.priority = 0)) :=
  ⟨rfl, by decide, rfl, claim_C5 mTest esTest rfl (by decide) rfl⟩

/-- C10: when the emotion-scores field is absent, the success branch emits
no Emotion entry at all — neither an emotion warning nor the Emotion
success — while a single Detection entry and the three Performance
entries are still produced. -/
theorem claim_C10 (m : Metrics) (hf : m.face_detected = true)
    (he : 0 < m.eyeContactPercentage) (hns : m.emotionScores = none) :
    (analyzeWarnings (some m)).filter (fun w => w.category == WCategory.emotion) = [] ∧
    ((analyzeWarnings (some m)).filter
      (fun w => w.category == WCategory.detection)).length = 1 ∧
    ((analyzeWarnings (some m)).filter
      (fun w => w.category == WCategory.performance)).length = 3 := by
  have hperm := analyzeWarnings_pos_perm m hf he
  have hsec : emotionSection m = [] := by simp [emotionSection, hns]
  rw [hsec] at hperm
  have h2 := (eyeContactCheck_spec m).1
  have h3 := (confidenceCheck_spec m).1
  have h4 := (clarityCheck_spec m).1
  refine ⟨?_, ?_, ?_⟩
  · have hf1 := hperm.filter (fun w => w.category == WCategory.emotion)
    have hbase : (detectionSuccess :: eyeContactCheck m :: confidenceCheck m ::
        clarityCheck m :: ([] : List Warning)).filter
          (fun w => w.category == WCategory.emotion) = [] := by
      simp [List.filter_cons, h2, h3, h4, detectionSuccess]
    rw [hbase] at hf1
    exact hf1.eq_nil
  · have hf1 := hperm.filter (fun w => w.category == WCategory.detection)
    have hbase : (detectionSuccess :: eyeContactCheck m :: confidenceCheck m ::
        clarityCheck m :: ([] : List Warning)).filter
          (fun w => w.category == WCategory.detection) = [detectionSuccess] := by
      simp [List.filter_cons, h2, h3, h4, detectionSuccess]
    rw [hbase] at hf1
    simpa using hf1.length_eq
  · have hf1 := hperm.filter (fun w => w.category == WCategory.performance)
    have hbase : (detectionSuccess :: eyeContactCheck m :: confidenceCheck m ::
        clarityCheck m :: ([] : List Warning)).filter
          (fun w => w.category == WCategory.performance)
        = [eyeContactCheck m, confidenceCheck m, clarityCheck m] := by
      simp [List.filter_cons, h2, h3, h4, detectionSuccess]
    rw [hbase] at hf1
    simpa using hf1.length_eq

/-- Metrics with face and eyes established but no emotion-scores field. -/
def mNoEmotion : Metrics :=
  { face_detected := true
    eyeContactPercentage := 55
    confidenceScore := 0.9
    speechClarity := 0.9
    emotionScores := none
    warnings := [] }

/-- Witness for C10 at `mNoEmotion`. -/
theorem claim_C10_witness :
    mNoEmotion.face_detected = true ∧ 0 < mNoEmotion.eyeContactPercentage ∧
    mNoEmotion.emotionScores = none ∧
    ((analyzeWarnings (some mNoEmotion)).filter
        (fun w => w.category == WCategory.emotion) = [] ∧
      ((analyzeWarnings (some mNoEmotion)).filter
        (fun w => w.category == WCategory.detection)).length = 1 ∧
      ((analyzeWarnings (some mNoEmotion)).filter
        (fun w => w.category == WCategory.performance)).length = 3) :=
  ⟨rfl, by decide, rfl, claim_C10 mNoEmotion rfl (by decide) rfl⟩

/-- The `final_report` object the Results page destructures. -/
structure FinalReport where
  eye_contact_percentage : ℚ
  confidence_score : ℚ
  speech_clarity : ℚ
  overall_score : ℚ

/-- The partial metrics object carried by an `UPDATE_METRICS` action:
`{ ...state.metrics, ...action.payload }` overrides exactly the keys
present in the payload. -/
structure MetricsPatch where
  face_detected : Option Bool
  eyeContactPercentage : Option ℚ
  confidenceScore : Option ℚ
  speechClarity : Option ℚ
  emotionScores : Option (Option (String → Option ℚ))
  warnings : Option (List Warning)

/-- Object spread of a partial payload over the current metrics. -/
def applyMetricsPatch (m : Metrics) (p : MetricsPatch) : Metrics :=
  { face_detected := p.face_detected.getD m.face_detected
    eyeContactPercentage := p.eyeContactPercentage.getD m.eyeContactPercentage
    confidenceScore := p.confidenceScore.getD m.confidenceScore
    speechClarity := p.speechClarity.getD m.speechClarity
    emotionScores := p.emotionScores.getD m.emotionScores
    warnings := p.warnings.getD m.warnings }

/-- The interview context state held by `useReducer`.  Opaque runtime
handles (media streams, the socket) are modelled as abstract tokens. -/
structure InterviewState where
  sessionId : Option String
  candidateName : String
  questions : List String
  currentQuestionIndex : ℤ
  isInterviewActive : Bool
  isInterviewCompleted : Bool
  metrics : Metrics
  videoStream : Option ℕ
  audioStream : Option ℕ
  isLoading : Bool
  error : Option String
  finalResults : Option FinalReport
  socket : Option ℕ
  isConnected : Bool

/-- `initialState` of the context.  The initial metrics object has no
`face_detected` key, which reads as `false`; `emotionScores` starts as
the empty (truthy) object. -/
def initialState : InterviewState :=
  { sessionId := none
    candidateName := ""
    questions := []
    currentQuestionIndex := 0
    isInterviewActive := false
    isInterviewCompleted := false
    metrics :=
      { face_detected := false
        eyeContactPercentage := 0
        confidenceScore := 0
        speechClarity := 0
        emotionScores := some (fun _ => none)
        warnings := [] }
    videoStream := none
    audioStream := none
    isLoading := false
    error := none
    finalResults := none
    socket := none
    isConnected := false }

/-- The `ACTIONS` dispatched to `interviewReducer`, each with its
payload. -/
inductive Action where
  | setSessionId (payload : Option String)
  | setCandidateName (payload : String)
  | setQuestions (payload : List String)
  | setCurrentQuestion (payload : ℤ)
  | setInterviewActive (payload : Bool)
  | setInterviewCompleted (payload : Bool)
  | updateMetrics (payload : MetricsPatch)
  | setVideoStream (payload : Option ℕ)
  | setAudioStream (payload : Option ℕ)
  | setLoading (payload : Bool)
  | setError (payload : Option String)
  | setFinalResults (payload : Option FinalReport)
  | setSocket (payload : Option ℕ)
  | setConnected (payload : Bool)
  | resetState

/-- `interviewReducer(state, action)`. -/
def interviewReducer (state : InterviewState) (action : Action) : InterviewState :=
  match action with
  | Action.setSessionId p => { state with sessionId := p }
  | Action.setCandidateName p => { state with candidateName := p }
  | Action.setQuestions p => { state with questions := p }
  | Action.setCurrentQuestion p => { state with currentQuestionIndex := p }
  | Action.setInterviewActive p => { state with isInterviewActive := p }
  | Action.setInterviewCompleted p => { state with isInterviewCompleted := p }
  | Action.updateMetrics p => { state with metrics := applyMetricsPatch state.metrics p }
  | Action.setVideoStream p => { state with videoStream := p }
  | Action.setAudioStream p => { state with audioStream := p }
  | Action.setLoading p => { state with isLoading := p }
  | Action.setError p => { state with error := p }
  | Action.setFinalResults p => { state with finalResults := p }
  | Action.setSocket p => { state with socket := p }
  | Action.setConnected p => { state with isConnected := p }
  | Action.resetState => initialState

/-- `utils.nextQuestion`: when strictly below `questions.length - 1`,
dispatches `SET_CURRENT_QUESTION` with the incremented index and
returns `true`; otherwise returns `false`.  The pair is the resulting
state together with the returned boolean. -/
def nextQuestion (state : InterviewState) : InterviewState × Bool :=
  if state.currentQuestionIndex < (state.questions.length : ℤ) - 1 then
    (interviewReducer state
      (Action.setCurrentQuestion (state.currentQuestionIndex + 1)), true)
  else (state, false)

/-- `utils.previousQuestion`: when strictly above 0, dispatches
`SET_CURRENT_QUESTION` with the decremented index and returns `true`;
otherwise returns `false`. -/
def previousQuestion (state : InterviewState) : InterviewState × Bool :=
  if 0 < state.currentQuestionIndex then
    (interviewReducer state
      (Action.setCurrentQuestion (state.currentQuestionIndex - 1)), true)
  else (state, false)

/-- C7: question navigation is clamped and reports whether a move
occurred; within-bounds indices stay within `[0, questions.length - 1]`
under both moves. -/
theorem claim_C7 (s : InterviewState) :
    ((nextQuestion s).2 = true ↔
      s.currentQuestionIndex < (s.questions.length : ℤ) - 1) ∧
    (s.currentQuestionIndex < (s.questions.length : ℤ) - 1 →
      (nextQuestion s).1.currentQuestionIndex = s.currentQuestionIndex + 1) ∧
    (¬ s.currentQuestionIndex < (s.questions.length : ℤ) - 1 →
      (nextQuestion s).1 = s ∧ (nextQuestion s).2 = false) ∧
    ((previousQuestion s).2 = true ↔ 0 < s.currentQuestionIndex) ∧
    (0 < s.currentQuestionIndex →
      (previousQuestion s).1.currentQuestionIndex = s.currentQuestionIndex - 1) ∧
    (¬ 0 < s.currentQuestionIndex →
      (previousQuestion s).1 = s ∧ (previousQuestion s).2 = false) ∧
    (0 ≤ s.currentQuestionIndex → s.currentQuestionIndex ≤ (s.questions.length : ℤ) - 1 →
      (0 ≤ (nextQuestion s).1.currentQuestionIndex ∧
        (nextQuestion s).1.currentQuestionIndex ≤ ((nextQuestion s).1.questions.length : ℤ) - 1) ∧
      (0 ≤ (previousQuestion s).1.currentQuestionIndex ∧
        (previousQuestion s).1.currentQuestionIndex ≤
          ((previousQuestion s).1.questions.length : ℤ) - 1)) := by
  simp only [nextQuestion, previousQuestion, interviewReducer]
  split_ifs with h1 h2 <;>
    refine ⟨by simp_all, fun hb => ?_, fun hc => ?_, by simp_all,
      fun he => ?_, fun hf => ?_, fun hl hu => ?_⟩ <;>
    simp_all <;> omega

/-- A two-question session at its first question, for the C7 witness. -/
def sTest : InterviewState :=
  { initialState with questions := ["Tell me about yourself.", "Why this role?"] }

/-- Witness for C7 at `sTest`: advancing from index 0 of two questions
moves to index 1 and reports the move; moving back is refused. -/
theorem claim_C7_witness :
    (nextQuestion sTest).2 = true ∧
    (nextQuestion sTest).1.currentQuestionIndex = 1 ∧
    (previousQuestion sTest).2 = false ∧
    (previousQuestion sTest).1 = sTest := by
  have h := claim_C7 sTest
  refine ⟨h.1.mpr (by decide), ?_, (h.2.2.2.2.2.1 (by decide)).2,
    (h.2.2.2.2.2.1 (by decide)).1⟩
  rw [h.2.1 (by decide)]
  decide

/-- C9: a `SET_CURRENT_QUESTION` action changes only
`currentQuestionIndex`; every other field of the state is unchanged. -/
theorem claim_C9 (s : InterviewState) (i : ℤ) :
    (interviewReducer s (Action.setCurrentQuestion i)).currentQuestionIndex = i ∧
    (interviewReducer s (Action.setCurrentQuestion i)).sessionId = s.sessionId ∧
    (interviewReducer s (Action.setCurrentQuestion i)).candidateName = s.candidateName ∧
    (interviewReducer s (Action.setCurrentQuestion i)).questions = s.questions ∧
    (interviewReducer s (Action.setCurrentQuestion i)).isInterviewActive = s.isInterviewActive ∧
    (interviewReducer s (Action.setCurrentQuestion i)).isInterviewCompleted
      = s.isInterviewCompleted ∧
    (interviewReducer s (Action.setCurrentQuestion i)).metrics = s.metrics ∧
    (interviewReducer s (Action.setCurrentQuestion i)).videoStream = s.videoStream ∧
    (interviewReducer s (Action.setCurrentQuestion i)).audioStream = s.audioStream ∧
    (interviewReducer s (Action.setCurrentQuestion i)).isLoading = s.isLoading ∧
    (interviewReducer s (Action.setCurrentQuestion i)).error = s.error ∧
    (interviewReducer s (Action.setCurrentQuestion i)).finalResults = s.finalResults ∧
    (interviewReducer s (Action.setCurrentQuestion i)).socket = s.socket ∧
    (interviewReducer s (Action.setCurrentQuestion i)).isConnected = s.isConnected :=
  ⟨rfl, rfl, rfl, rfl, rfl, rfl, rfl, rfl, rfl, rfl, rfl, rfl, rfl, rfl⟩

/-- The strength bullets the Results page renders, in DOM order. -/
def strengthBullets (r : FinalReport) : List String :=
  (if 80 ≤ r.overall_score then
      ["• Excellent overall performance", "• Strong communication skills",
        "• Good preparation and confidence"]
    else []) ++
  (if 70 ≤ r.eye_contact_percentage then ["• Maintained good eye contact"] else []) ++
  (if 0.7 ≤ r.confidence_score then ["• Demonstrated high confidence"] else []) ++
  (if 0.7 ≤ r.speech_clarity then ["• Clear and articulate speech"] else [])

/-- The improvement bullets the Results page renders, in DOM order. -/
def improvementBullets (r : FinalReport) : List String :=
  (if r.eye_contact_percentage < 70 then ["• Work on maintaining better eye contact"] else []) ++
  (if r.confidence_score < 0.7 then ["• Build confidence through practice"] else []) ++
  (if r.speech_clarity < 0.7 then ["• Improve speech clarity and articulation"] else []) ++
  (if r.overall_score < 80 then ["• Continue practicing interview skills"] else [])

/-- C8: the final-report feedback bullets follow the fixed thresholds —
eye contact at least 70 gives the strength bullet and below 70 the
improvement bullet, and confidence / speech clarity do the same at
0.7. -/
theorem claim_C8 (r : FinalReport) :
    ((70 : ℚ) ≤ r.eye_contact_percentage ↔
      "• Maintained good eye contact" ∈ strengthBullets r) ∧
    (r.eye_contact_percentage < 70 ↔
      "• Work on maintaining better eye contact" ∈ improvementBullets r) ∧
    ((0.7 : ℚ) ≤ r.confidence_score ↔
      "• Demonstrated high confidence" ∈ strengthBullets r) ∧
    (r.confidence_score < 0.7 ↔
      "• Build confidence through practice" ∈ improvementBullets r) ∧
    ((0.7 : ℚ) ≤ r.speech_clarity ↔
      "• Clear and articulate speech" ∈ strengthBullets r) ∧
    (r.speech_clarity < 0.7 ↔
      "• Improve speech clarity and articulation" ∈ improvementBullets r) := by
  unfold strengthBullets improvementBullets
  refine ⟨?_, ?_, ?_, ?_, ?_, ?_⟩ <;> split_ifs <;> simp_all

end Interview
